import Mathlib

/-!
Verification of the rk-prom push-gateway publisher (pusher.go), its entry
wiring and the MetricsSet bookkeeping (metrics code), against the repository
specification.

The Go source is shallowly embedded: strings are Lean `String`s, Go
`time.Duration` values are `Int` nanoseconds, fallible construction returns
`Except String _`, and the few external collaborators (x509 key-pair parsing,
the prometheus global registry, the JSON serialization of the external logger
entries) are parameters of the embedded functions.  All definitions are
executable so concrete runs evaluate by `decide`/`rfl`.
-/

namespace RkProm

set_option maxRecDepth 40000

/-! ### Go primitives

Byte lengths, whitespace trimming, splitting and string matching, modelled
character-by-character so that everything reduces in the kernel. -/

/-- UTF-8 byte size of one character; `goLen` below models Go `len(s)`,
which is the UTF-8 byte length of the string. -/
def charUtf8Size (c : Char) : Nat :=
  if c.toNat < 0x80 then 1
  else if c.toNat < 0x800 then 2
  else if c.toNat < 0x10000 then 3
  else 4

/-- Go `len(s)`: the UTF-8 byte length. -/
def goLen (s : String) : Nat := (s.data.map charUtf8Size).sum

/-- Go `unicode.IsSpace`: the Unicode White_Space code points
(U+0009..U+000D, U+0020, U+0085, U+00A0, U+1680, U+2000..U+200A,
U+2028, U+2029, U+202F, U+205F, U+3000). -/
def goIsSpace (c : Char) : Bool :=
  c.toNat == 0x09 || c.toNat == 0x0A || c.toNat == 0x0B || c.toNat == 0x0C ||
  c.toNat == 0x0D || c.toNat == 0x20 || c.toNat == 0x85 || c.toNat == 0xA0 ||
  c.toNat == 0x1680 ||
  (decide (0x2000 ≤ c.toNat) && decide (c.toNat ≤ 0x200A)) ||
  c.toNat == 0x2028 || c.toNat == 0x2029 || c.toNat == 0x202F ||
  c.toNat == 0x205F || c.toNat == 0x3000

/-- Go `strings.TrimSpace`: drop leading and trailing white space. -/
def goTrimSpace (s : String) : String :=
  ⟨((s.data.dropWhile goIsSpace).reverse.dropWhile goIsSpace).reverse⟩

/-- Whether the first list is a leading segment of the second
(Go `strings.HasPre` + `fix`, pattern first). -/
def listStartsWith : List Char → List Char → Bool
  | [], _ => true
  | _ :: _, [] => false
  | p :: ps, c :: cs => p == c && listStartsWith ps cs

/-- Go `strings.HasPre` + `fix s pat`: does `s` start with `pat`? -/
def goStartsWith (s pat : String) : Bool := listStartsWith pat.data s.data

/-- Split a character list at every occurrence of `sep`; with a one-character
separator this is exactly Go `strings.Split` (the empty string yields `[""]`,
`n` separators yield `n+1` tokens). -/
def splitOnChar (sep : Char) : List Char → List (List Char)
  | [] => [[]]
  | c :: cs =>
    if c == sep then [] :: splitOnChar sep cs
    else
      match splitOnChar sep cs with
      | t :: ts => (c :: t) :: ts
      | [] => [[c]]

/-- Go `strings.Split(s, ":")`. -/
def goSplitColon (s : String) : List String := (splitOnChar ':' s.data).map String.mk

/-- Go `strings.Contains(s, ":")` (a one-character needle is a character test). -/
def goContainsColon (s : String) : Bool := s.data.contains ':'

/-- Go `1 * time.Second` as `time.Duration` nanoseconds. -/
def timeSecond : Int := 1000000000

/-- Go `time.Millisecond` in nanoseconds. -/
def timeMillisecond : Int := 1000000

/-! ### Data model of the pusher (pusher.go) -/

/-- `rkentry.CertStore`: the certificate bundle handed to the constructor
(PEM bytes of the server certificate and of the client certificate/key). -/
structure CertStore where
  serverCert : String
  clientCert : String
  clientKey : String
deriving DecidableEq, Repr

/-- The `tls.Config` built in `NewPushGatewayPusher`: a root CA pool fed the
server certificate PEM, plus the client certificate chain when the pair
parses (`conf.Certificates`), empty otherwise. -/
structure TLSConf where
  rootCAs : String
  certificates : List String
deriving DecidableEq, Repr

/-- The state the constructor configures on the `push.Pusher` forwarder:
`push.New(addr, job)`, optional `.BasicAuth(user, pass)`, and the TLS
configuration attached to the HTTP client handed to `.Client(...)`. -/
structure PushForwarder where
  url : String
  job : String
  basicAuth : Option (String × String)
  tlsConf : Option TLSConf
deriving DecidableEq, Repr

/-- `PushGatewayPusher` (pusher.go lines 36-47).  The logger entries are
external collaborators and carry no data the claims depend on; the mutex
only guards the sequential transitions modelled below. -/
structure PushGatewayPusher where
  intervalMS : Int
  remoteAddress : String
  jobName : String
  credential : String
  certStore : Option CertStore
  pusher : PushForwarder
  running : Bool
deriving DecidableEq, Repr

/-- The configuration record the functional options mutate before
validation (the `pg` value of `NewPushGatewayPusher` before the checks). -/
structure PusherConfig where
  intervalMS : Int
  remoteAddress : String
  jobName : String
  credential : String
  certStore : Option CertStore
deriving DecidableEq, Repr

/-- The initial `pg`: `IntervalMS: 1 * time.Second`, `Running: false`,
everything else zero-valued (pusher.go lines 100-106). -/
def initialPusherConfig : PusherConfig :=
  { intervalMS := timeSecond
    remoteAddress := ""
    jobName := ""
    credential := ""
    certStore := none }

/-- One functional option (`WithIntervalMSPusher`, `WithRemoteAddressPusher`,
`WithJobNamePusher`, `WithBasicAuthPusher`, `WithCertStorePusher`).  The
logger options touch only the external logger entries and are omitted. -/
inductive PusherOpt where
  | withIntervalMS (i : Int)
  | withRemoteAddress (s : String)
  | withJobName (s : String)
  | withBasicAuth (s : String)
  | withCertStore (c : Option CertStore)
deriving DecidableEq, Repr

/-- Apply one option to the configuration. -/
def applyOpt (cfg : PusherConfig) : PusherOpt → PusherConfig
  | .withIntervalMS i => { cfg with intervalMS := i }
  | .withRemoteAddress s => { cfg with remoteAddress := s }
  | .withJobName s => { cfg with jobName := s }
  | .withBasicAuth s => { cfg with credential := s }
  | .withCertStore c => { cfg with certStore := c }

/-- Apply the options in order (`for i := range opts { opts[i](pg) }`). -/
def applyOpts (opts : List PusherOpt) (cfg : PusherConfig) : PusherConfig :=
  opts.foldl applyOpt cfg

/-- Address normalization (pusher.go lines 120-125): when a certificate
store is present and the address does not already start with `https://`,
prepend `https://`. -/
def resolveAddress (cert : Option CertStore) (addr : String) : String :=
  if cert.isSome && !(goStartsWith addr "https://") then "https://" ++ addr else addr

/-- The guard of the basic-auth block (pusher.go line 142):
`len(pg.Credential) > 0 && strings.Contains(pg.Credential, ":")`. -/
def credApplies (cred : String) : Bool :=
  decide (0 < goLen cred) && goContainsColon cred

/-- The credential stored on the pusher: trimmed inside the basic-auth
block (pusher.go line 143), left as-is otherwise. -/
def resolveCredential (cred : String) : String :=
  if credApplies cred then goTrimSpace cred else cred

/-- The basic auth applied to the forwarder (pusher.go lines 142-148):
only when the guard holds and the trimmed credential splits on `:` into
exactly two tokens. -/
def resolveBasicAuth (cred : String) : Option (String × String) :=
  if credApplies cred then
    match goSplitColon (goTrimSpace cred) with
    | [u, p] => some (u, p)
    | _ => none
  else none

/-- TLS handling (pusher.go lines 154-169), parameterized by the external
`tls.X509KeyPair` parser `kp`: the root CA pool is fed the server
certificate, and the client certificate is attached only when the pair
parses (`err == nil`). -/
def buildTLSConf (kp : String → String → Option String) (cert : Option CertStore) :
    Option TLSConf :=
  cert.map fun cs =>
    { rootCAs := cs.serverCert
      certificates := (kp cs.clientCert cs.clientKey).toList }

/-- `NewPushGatewayPusher` (pusher.go lines 99-174), parameterized by the
external key-pair parser `kp`.  Checks in source order: interval, remote
address, (address normalization), job name; then forwarder construction,
basic auth, TLS; returns the pusher with `Running = false`.  The Go code
computes `pg := applyOpts opts initialPusherConfig` once; it is repeated
here to keep the definition let-free. -/
def newPushGatewayPusher (kp : String → String → Option String)
    (opts : List PusherOpt) : Except String PushGatewayPusher :=
  if (applyOpts opts initialPusherConfig).intervalMS < 1 then
    Except.error "invalid intervalMS"
  else if goLen (applyOpts opts initialPusherConfig).remoteAddress < 1 then
    Except.error "empty remoteAddress"
  else if goLen (applyOpts opts initialPusherConfig).jobName < 1 then
    Except.error "empty job name"
  else
    Except.ok
      { intervalMS := (applyOpts opts initialPusherConfig).intervalMS
        remoteAddress := resolveAddress (applyOpts opts initialPusherConfig).certStore
          (applyOpts opts initialPusherConfig).remoteAddress
        jobName := (applyOpts opts initialPusherConfig).jobName
        credential := resolveCredential (applyOpts opts initialPusherConfig).credential
        certStore := (applyOpts opts initialPusherConfig).certStore
        pusher :=
          { url := resolveAddress (applyOpts opts initialPusherConfig).certStore
              (applyOpts opts initialPusherConfig).remoteAddress
            job := (applyOpts opts initialPusherConfig).jobName
            basicAuth := resolveBasicAuth (applyOpts opts initialPusherConfig).credential
            tlsConf := buildTLSConf kp (applyOpts opts initialPusherConfig).certStore }
        running := false }

/-! ### Basic lemmas about the primitives and the constructor -/

lemma charUtf8Size_pos (c : Char) : 0 < charUtf8Size c := by
  unfold charUtf8Size
  split
  · decide
  split
  · decide
  split
  · decide
  · decide

lemma goLen_eq_zero_iff (s : String) : goLen s = 0 ↔ s = "" := by
  cases s with
  | mk data =>
    cases data with
    | nil => constructor <;> intro _ <;> rfl
    | cons c cs =>
      have hc := charUtf8Size_pos c
      simp only [goLen, List.map_cons, List.sum_cons]
      constructor
      · intro h
        omega
      · intro h
        exact absurd (congrArg String.data h) (by simp)

lemma goLen_pos_of_ne (s : String) (h : s ≠ "") : ¬ goLen s < 1 := by
  intro hlt
  exact h ((goLen_eq_zero_iff s).mp (Nat.lt_one_iff.mp hlt))

/-- Unfolded success shape of the constructor: with a valid interval,
address and job name it returns `ok` with the resolved fields. -/
lemma newPushGatewayPusher_ok (kp : String → String → Option String)
    (opts : List PusherOpt)
    (h1 : ¬ (applyOpts opts initialPusherConfig).intervalMS < 1)
    (h2 : ¬ goLen (applyOpts opts initialPusherConfig).remoteAddress < 1)
    (h3 : ¬ goLen (applyOpts opts initialPusherConfig).jobName < 1) :
    newPushGatewayPusher kp opts = Except.ok
      { intervalMS := (applyOpts opts initialPusherConfig).intervalMS
        remoteAddress := resolveAddress (applyOpts opts initialPusherConfig).certStore
          (applyOpts opts initialPusherConfig).remoteAddress
        jobName := (applyOpts opts initialPusherConfig).jobName
        credential := resolveCredential (applyOpts opts initialPusherConfig).credential
        certStore := (applyOpts opts initialPusherConfig).certStore
        pusher :=
          { url := resolveAddress (applyOpts opts initialPusherConfig).certStore
              (applyOpts opts initialPusherConfig).remoteAddress
            job := (applyOpts opts initialPusherConfig).jobName
            basicAuth := resolveBasicAuth (applyOpts opts initialPusherConfig).credential
            tlsConf := buildTLSConf kp (applyOpts opts initialPusherConfig).certStore }
        running := false } := by
  unfold newPushGatewayPusher
  rw [if_neg h1, if_neg h2, if_neg h3]

/-! ### The JSON snapshot (`PushGatewayPusher.String`, pusher.go lines 247-255)

`String()` runs `json.Marshal` over the whole struct.  `encoding/json`
serializes the exported fields in declaration order (`ZapLoggerEntry`,
`EventLoggerEntry`, `CertStore`, `Pusher`, `IntervalMS`, `RemoteAddress`,
`JobName`, `Running`, `Credential`); the unexported `lock` is skipped.
`time.Duration` marshals as the nanosecond integer and `atomic.Bool` as a
JSON boolean.  The serializations of the four external leading fields
(logger entries, cert store, `push.Pusher`) are parameters; the test
`TestPromEntry_String_HappyCase` shows the marshal succeeds, so the
error branch returning `""` is not taken. -/

/-- Lowercase hex digit, as used by `encoding/json` `\uXXXX` escapes. -/
def hexDigitChar (n : Nat) : Char :=
  if n < 10 then Char.ofNat (48 + n) else Char.ofNat (87 + n)

/-- How `encoding/json` (with its default HTML escaping) renders one
character inside a string literal. -/
def goJsonEscapeChar (c : Char) : List Char :=
  if c = '"' then ['\\', '"']
  else if c = '\\' then ['\\', '\\']
  else if c = '\n' then ['\\', 'n']
  else if c = '\r' then ['\\', 'r']
  else if c = '\t' then ['\\', 't']
  else if c.toNat < 0x20 ∨ c = '<' ∨ c = '>' ∨ c = '&' then
    ['\\', 'u', '0', '0', hexDigitChar (c.toNat / 16), hexDigitChar (c.toNat % 16)]
  else if c.toNat = 0x2028 ∨ c.toNat = 0x2029 then
    ['\\', 'u', '2', '0', '2', hexDigitChar (c.toNat % 16)]
  else [c]

/-- Escape every character of a string body. -/
def escapeList : List Char → List Char
  | [] => []
  | c :: cs => goJsonEscapeChar c ++ escapeList cs

/-- A Go JSON string literal. -/
def goJsonString (s : String) : String := "\"" ++ String.mk (escapeList s.data) ++ "\""

/-- A character `encoding/json` emits verbatim. -/
def goJsonPlainChar (c : Char) : Prop :=
  c ≠ '"' ∧ c ≠ '\\' ∧ c ≠ '\n' ∧ c ≠ '\r' ∧ c ≠ '\t' ∧
  ¬(c.toNat < 0x20 ∨ c = '<' ∨ c = '>' ∨ c = '&') ∧
  ¬(c.toNat = 0x2028 ∨ c.toNat = 0x2029)

instance (c : Char) : Decidable (goJsonPlainChar c) := by
  unfold goJsonPlainChar; infer_instance

/-- The output of `PushGatewayPusher.String`: the `json.Marshal` of the
struct, with the serializations of the four external fields passed in as
`zapR`, `eventR`, `certR`, `pushR`. -/
def pushGatewayPusherString (zapR eventR certR pushR : String)
    (p : PushGatewayPusher) : String :=
  (("\x7b\"ZapLoggerEntry\":" ++ zapR)
    ++ (",\"EventLoggerEntry\":" ++ eventR)
    ++ (",\"CertStore\":" ++ certR)
    ++ (",\"Pusher\":" ++ pushR)
    ++ (",\"IntervalMS\":" ++ toString p.intervalMS)
    ++ (",\"RemoteAddress\":" ++ goJsonString p.remoteAddress)
    ++ (",\"JobName\":" ++ goJsonString p.jobName)
    ++ (",\"Running\":" ++ (if p.running then "true" else "false")))
    ++ (",\"Credential\":" ++ goJsonString p.credential ++ "\x7d")

/-- Occurrence of `sub` as a contiguous segment of `l`. -/
def listContainsSub (sub : List Char) : List Char → Bool
  | [] => listStartsWith sub []
  | c :: cs => listStartsWith sub (c :: cs) || listContainsSub sub cs

lemma strAppend_assoc (a b c : String) : a ++ b ++ c = a ++ (b ++ c) := by
  cases a with
  | mk la =>
    cases b with
    | mk lb =>
      cases c with
      | mk lc =>
        show String.mk (la ++ lb ++ lc) = String.mk (la ++ (lb ++ lc))
        rw [List.append_assoc]

lemma escapeList_plain (l : List Char) (h : ∀ c ∈ l, goJsonPlainChar c) :
    escapeList l = l := by
  induction l with
  | nil => rfl
  | cons c cs ih =>
    have hc := h c (by simp)
    obtain ⟨h1, h2, h3, h4, h5, h6, h7⟩ := hc
    simp only [escapeList, goJsonEscapeChar, if_neg h1, if_neg h2, if_neg h3,
      if_neg h4, if_neg h5, if_neg h6, if_neg h7, List.singleton_append]
    exact congrArg (c :: ·) (ih fun x hx => h x (by simp [hx]))

lemma goJsonString_plain (s : String) (h : ∀ c ∈ s.data, goJsonPlainChar c) :
    goJsonString s = "\"" ++ s ++ "\"" := by
  cases s with
  | mk l =>
    show "\"" ++ String.mk (escapeList l) ++ "\"" = "\"" ++ String.mk l ++ "\""
    rw [escapeList_plain l h]

/-! ### Lifecycle and push loop (pusher.go lines 177-235)

The guard serializes `Start`, `Stop` and `IsRunning`, so the reachable
behaviours are sequences of these operations; `spawned` counts the
`go pub.push()` launches and `warnings` records the warning log entries
`(remote_address, job_name, error)` of failed push iterations. -/

/-- Sequential state of one publisher process. -/
structure PusherProc where
  running : Bool
  spawned : Nat
  warnings : List (String × String × String)
deriving DecidableEq, Repr

/-- `Start` (pusher.go lines 177-197): if already running, log and return;
otherwise `Running.CAS(false, true)` and launch one background task. -/
def startProc (p : PusherProc) : PusherProc :=
  if p.running then p
  else { p with running := true, spawned := p.spawned + 1 }

/-- `Stop` (pusher.go lines 230-235): `Running.CAS(true, false)` — the flag
ends false, nothing else changes. -/
def stopProc (p : PusherProc) : PusherProc := { p with running := false }

/-- `IsRunning` (pusher.go lines 225-227): read the flag. -/
def isRunningProc (p : PusherProc) : Bool := p.running

/-- One turn of the `push` loop (pusher.go lines 200-222) given the outcome
of `pub.Pusher.Push()` (`some e` models `err != nil`): the body runs only
while the flag is set; on error it logs a warning carrying the remote
address, the job name and the error; it never writes the flag. -/
def pushIter (pub : PushGatewayPusher) (p : PusherProc) (result : Option String) :
    PusherProc :=
  if p.running then
    match result with
    | some e => { p with warnings := p.warnings ++ [(pub.remoteAddress, pub.jobName, e)] }
    | none => p
  else p

/-- The push loop across a sequence of per-iteration outcomes. -/
def pushLoop (pub : PushGatewayPusher) (p : PusherProc)
    (results : List (Option String)) : PusherProc :=
  results.foldl (pushIter pub) p

lemma pushIter_running (pub : PushGatewayPusher) (p : PusherProc)
    (r : Option String) : (pushIter pub p r).running = p.running := by
  unfold pushIter
  split
  · cases r <;> rfl
  · rfl

lemma pushLoop_running (pub : PushGatewayPusher) (p : PusherProc)
    (results : List (Option String)) : (pushLoop pub p results).running = p.running := by
  induction results generalizing p with
  | nil => rfl
  | cons r rs ih =>
    show (pushLoop pub (pushIter pub p r) rs).running = p.running
    rw [ih, pushIter_running]

/-! ### MetricsSet (the metrics bookkeeping embedded alongside the tests)

Keys have the form `namespace::subsystem::name`; the four vector maps are
modelled by the lists of keys they hold (the vector values live in the
external prometheus library).  `prometheus.Register` is external: its
outcome is the `regResult` parameter (`none` models `err == nil`). -/

/-- Constants of the metrics code: `maxKeyLength = 128`, `separator = "::"`,
`namespaceDefault = "rk"`, `subSystemDefault = "service"`. -/
def maxKeyLength : Nat := 128

/-- `MetricsSet`: namespace, subsystem, the key set, and the per-kind maps
(each represented by its key list). -/
structure MetricsSet where
  nameSpace : String
  subSystem : String
  keys : List String
  counters : List String
  gauges : List String
  summaries : List String
  histograms : List String
deriving DecidableEq, Repr

/-- `NewMetricsSet`: empty namespace/subsystem fall back to the defaults. -/
def newMetricsSet (nameSpace subSystem : String) : MetricsSet :=
  { nameSpace := if goLen nameSpace < 1 then "rk" else nameSpace
    subSystem := if goLen subSystem < 1 then "service" else subSystem
    keys := []
    counters := []
    gauges := []
    summaries := []
    histograms := [] }

/-- `MetricsSet.getKey`: `strings.Join([ns, ss, name], "::")`. -/
def getKey (set : MetricsSet) (name : String) : String :=
  set.nameSpace ++ "::" ++ set.subSystem ++ "::" ++ name

/-- `MetricsSet.containsKey`: key-set membership. -/
def containsKey (set : MetricsSet) (key : String) : Bool :=
  decide (key ∈ set.keys)

/-- `validateRawName`: non-empty and at most `maxKeyLength` bytes. -/
def validateRawName (name : String) : Option String :=
  if goLen name < 1 then some "empty counter name"
  else if goLen name > maxKeyLength then some "exceed max name length:128"
  else none

/-- Shared shape of the four `RegisterXXX` methods: trim the name, validate
it, derive the key, fail on a duplicate, then (only when the external
`prometheus.Register` succeeded, i.e. `regResult = none`) record the key in
the key set and in the map selected by `addVec`.  The returned pair is the
(possibly updated) receiver and the returned error. -/
def registerMetric (regResult : Option String) (set : MetricsSet) (name : String)
    (addVec : MetricsSet → String → MetricsSet) : MetricsSet × Option String :=
  match validateRawName (goTrimSpace name) with
  | some e => (set, some e)
  | none =>
    if containsKey set (getKey set (goTrimSpace name)) then
      (set, some ("duplicate metrics:" ++ getKey set (goTrimSpace name)))
    else
      match regResult with
      | some e => (set, some e)
      | none =>
        (addVec { set with keys := getKey set (goTrimSpace name) :: set.keys }
          (getKey set (goTrimSpace name)), none)

/-- `MetricsSet.RegisterCounter`. -/
def registerCounter (regResult : Option String) (set : MetricsSet) (name : String) :
    MetricsSet × Option String :=
  registerMetric regResult set name fun s k => { s with counters := k :: s.counters }

/-- `MetricsSet.RegisterGauge`. -/
def registerGauge (regResult : Option String) (set : MetricsSet) (name : String) :
    MetricsSet × Option String :=
  registerMetric regResult set name fun s k => { s with gauges := k :: s.gauges }

/-- `MetricsSet.RegisterSummary` (the objectives only parameterize the
external summary vector, not the bookkeeping). -/
def registerSummary (regResult : Option String) (set : MetricsSet) (name : String) :
    MetricsSet × Option String :=
  registerMetric regResult set name fun s k => { s with summaries := k :: s.summaries }

/-- `MetricsSet.RegisterHistogram` (the buckets only parameterize the
external histogram vector, not the bookkeeping). -/
def registerHistogram (regResult : Option String) (set : MetricsSet) (name : String) :
    MetricsSet × Option String :=
  registerMetric regResult set name fun s k => { s with histograms := k :: s.histograms }

/-- A register call in a run: which kind, the external registry outcome,
and the raw name. -/
inductive MetricsOp where
  | counter (regResult : Option String) (name : String)
  | gauge (regResult : Option String) (name : String)
  | summary (regResult : Option String) (name : String)
  | histogram (regResult : Option String) (name : String)
deriving DecidableEq, Repr

/-- Apply one register call to the set. -/
def applyMetricsOp (set : MetricsSet) : MetricsOp → MetricsSet
  | .counter r n => (registerCounter r set n).1
  | .gauge r n => (registerGauge r set n).1
  | .summary r n => (registerSummary r set n).1
  | .histogram r n => (registerHistogram r set n).1

/-- Run a sequence of register calls. -/
def runMetricsOps (set : MetricsSet) (ops : List MetricsOp) : MetricsSet :=
  ops.foldl applyMetricsOp set

lemma registerMetric_keys_nodup (regResult : Option String) (set : MetricsSet)
    (name : String) (addVec : MetricsSet → String → MetricsSet)
    (hf : ∀ s k, (addVec s k).keys = s.keys) (h : set.keys.Nodup) :
    ((registerMetric regResult set name addVec).1).keys.Nodup := by
  unfold registerMetric
  cases validateRawName (goTrimSpace name) with
  | some e => exact h
  | none =>
    simp only
    by_cases hdup : containsKey set (getKey set (goTrimSpace name)) = true
    · rw [if_pos hdup]
      exact h
    · rw [if_neg hdup]
      cases regResult with
      | some e => exact h
      | none =>
        simp only [hf]
        refine List.nodup_cons.mpr ⟨?_, h⟩
        intro hmem
        exact hdup (by simpa [containsKey] using hmem)

lemma applyMetricsOp_keys_nodup (set : MetricsSet) (op : MetricsOp)
    (h : set.keys.Nodup) : (applyMetricsOp set op).keys.Nodup := by
  cases op with
  | counter r n => exact registerMetric_keys_nodup r set n _ (fun _ _ => rfl) h
  | gauge r n => exact registerMetric_keys_nodup r set n _ (fun _ _ => rfl) h
  | summary r n => exact registerMetric_keys_nodup r set n _ (fun _ _ => rfl) h
  | histogram r n => exact registerMetric_keys_nodup r set n _ (fun _ _ => rfl) h

lemma runMetricsOps_keys_nodup (set : MetricsSet) (ops : List MetricsOp)
    (h : set.keys.Nodup) : (runMetricsOps set ops).keys.Nodup := by
  induction ops generalizing set with
  | nil => exact h
  | cons op rest ih =>
    exact ih (applyMetricsOp set op) (applyMetricsOp_keys_nodup set op h)

/-! ### Claim theorems -/

/-- Claim C3: the running flag follows the two-state machine
Stopped/Running — `Start` moves Stopped to Running spawning exactly one
background task, is a no-op (no second task) when already Running; `Stop`
moves Running to Stopped and is a no-op when already Stopped.  Quantifying
over all states covers every sequence of Start/Stop calls. -/
theorem lifecycle_two_state (p : PusherProc) :
    (p.running = false →
      startProc p = { p with running := true, spawned := p.spawned + 1 }) ∧
    (p.running = true → startProc p = p) ∧
    (p.running = true → stopProc p = { p with running := false }) ∧
    (p.running = false → stopProc p = p) := by
  refine ⟨fun h => ?_, fun h => ?_, fun _ => rfl, fun h => ?_⟩
  · simp [startProc, h]
  · simp [startProc, h]
  · cases p with
    | mk running spawned warnings =>
      simp only at h
      simp [stopProc, h]

/-- Witness for C3 at concrete states. -/
theorem lifecycle_two_state_witness :
    startProc ⟨false, 0, []⟩ = ⟨true, 1, []⟩ ∧
    startProc ⟨true, 1, []⟩ = ⟨true, 1, []⟩ ∧
    stopProc ⟨true, 1, []⟩ = ⟨false, 1, []⟩ ∧
    stopProc ⟨false, 1, []⟩ = ⟨false, 1, []⟩ :=
  ⟨(lifecycle_two_state ⟨false, 0, []⟩).1 rfl,
   (lifecycle_two_state ⟨true, 1, []⟩).2.1 rfl,
   (lifecycle_two_state ⟨true, 1, []⟩).2.2.1 rfl,
   (lifecycle_two_state ⟨false, 1, []⟩).2.2.2 rfl⟩

/-- Claim C8: a failed push iteration never changes the running flag — on a
push error the loop appends a warning carrying the remote address, the job
name and the error and continues, and after any sequence of iteration
outcomes the publisher still reports `IsRunning() = true`. -/
theorem push_failure_keeps_running (pub : PushGatewayPusher) (p : PusherProc)
    (h : p.running = true) :
    (∀ e, pushIter pub p (some e) =
      { p with warnings := p.warnings ++ [(pub.remoteAddress, pub.jobName, e)] }) ∧
    (∀ results, isRunningProc (pushLoop pub p results) = true) := by
  constructor
  · intro e
    simp [pushIter, h]
  · intro results
    simp [isRunningProc, pushLoop_running, h]

/-- Witness for C8 at a concrete publisher and error sequence. -/
theorem push_failure_keeps_running_witness :
    pushIter
      ⟨timeSecond, "localhost:1608", "rk-prom-job", "", none,
        ⟨"localhost:1608", "rk-prom-job", none, none⟩, true⟩
      ⟨true, 1, []⟩ (some "connection refused") =
      ⟨true, 1, [("localhost:1608", "rk-prom-job", "connection refused")]⟩ ∧
    isRunningProc (pushLoop
      ⟨timeSecond, "localhost:1608", "rk-prom-job", "", none,
        ⟨"localhost:1608", "rk-prom-job", none, none⟩, true⟩
      ⟨true, 1, []⟩ [some "connection refused", none, some "timeout"]) = true :=
  ⟨(push_failure_keeps_running
      ⟨timeSecond, "localhost:1608", "rk-prom-job", "", none,
        ⟨"localhost:1608", "rk-prom-job", none, none⟩, true⟩
      ⟨true, 1, []⟩ rfl).1 "connection refused",
   (push_failure_keeps_running
      ⟨timeSecond, "localhost:1608", "rk-prom-job", "", none,
        ⟨"localhost:1608", "rk-prom-job", none, none⟩, true⟩
      ⟨true, 1, []⟩ rfl).2 [some "connection refused", none, some "timeout"]⟩

/-- Claim C4: a non-positive interval makes construction fail with the
configuration error `invalid intervalMS` (no publisher produced), and any
interval of at least one nanosecond together with a non-empty address and
job name makes construction succeed. -/
theorem interval_validation (kp : String → String → Option String)
    (opts : List PusherOpt) :
    ((applyOpts opts initialPusherConfig).intervalMS ≤ 0 →
      newPushGatewayPusher kp opts = Except.error "invalid intervalMS") ∧
    (1 ≤ (applyOpts opts initialPusherConfig).intervalMS →
      (applyOpts opts initialPusherConfig).remoteAddress ≠ "" →
      (applyOpts opts initialPusherConfig).jobName ≠ "" →
      (newPushGatewayPusher kp opts).isOk = true) := by
  constructor
  · intro h
    unfold newPushGatewayPusher
    rw [if_pos (by omega)]
  · intro h1 h2 h3
    rw [newPushGatewayPusher_ok kp opts (by omega) (goLen_pos_of_ne _ h2)
      (goLen_pos_of_ne _ h3)]
    rfl

/-- Witness for C4: interval `-1` fails, interval `1` succeeds. -/
theorem interval_validation_witness :
    newPushGatewayPusher (fun _ _ => none)
      [PusherOpt.withIntervalMS (-1), PusherOpt.withRemoteAddress "localhost:1608",
        PusherOpt.withJobName "rk-prom-job"] = Except.error "invalid intervalMS" ∧
    (newPushGatewayPusher (fun _ _ => none)
      [PusherOpt.withIntervalMS 1, PusherOpt.withRemoteAddress "localhost:1608",
        PusherOpt.withJobName "rk-prom-job"]).isOk = true :=
  ⟨(interval_validation (fun _ _ => none)
      [PusherOpt.withIntervalMS (-1), PusherOpt.withRemoteAddress "localhost:1608",
        PusherOpt.withJobName "rk-prom-job"]).1 (by decide),
   (interval_validation (fun _ _ => none)
      [PusherOpt.withIntervalMS 1, PusherOpt.withRemoteAddress "localhost:1608",
        PusherOpt.withJobName "rk-prom-job"]).2 (by decide) (by decide) (by decide)⟩

/-- Claim C5: an empty remote address or an empty job name makes
construction fail with an error (no publisher), and non-empty values of
both (with a valid interval) make it succeed. -/
theorem address_job_validation (kp : String → String → Option String)
    (opts : List PusherOpt) :
    ((applyOpts opts initialPusherConfig).remoteAddress = "" →
      ∃ e, newPushGatewayPusher kp opts = Except.error e) ∧
    ((applyOpts opts initialPusherConfig).jobName = "" →
      ∃ e, newPushGatewayPusher kp opts = Except.error e) ∧
    ((applyOpts opts initialPusherConfig).remoteAddress ≠ "" →
      (applyOpts opts initialPusherConfig).jobName ≠ "" →
      1 ≤ (applyOpts opts initialPusherConfig).intervalMS →
      (newPushGatewayPusher kp opts).isOk = true) := by
  refine ⟨fun h => ?_, fun h => ?_, fun h2 h3 h1 => ?_⟩
  · by_cases hi : (applyOpts opts initialPusherConfig).intervalMS < 1
    · exact ⟨"invalid intervalMS", by unfold newPushGatewayPusher; rw [if_pos hi]⟩
    · refine ⟨"empty remoteAddress", ?_⟩
      unfold newPushGatewayPusher
      rw [if_neg hi, if_pos (by rw [h]; decide)]
  · by_cases hi : (applyOpts opts initialPusherConfig).intervalMS < 1
    · exact ⟨"invalid intervalMS", by unfold newPushGatewayPusher; rw [if_pos hi]⟩
    · by_cases ha : goLen (applyOpts opts initialPusherConfig).remoteAddress < 1
      · exact ⟨"empty remoteAddress", by unfold newPushGatewayPusher; rw [if_neg hi, if_pos ha]⟩
      · refine ⟨"empty job name", ?_⟩
        unfold newPushGatewayPusher
        rw [if_neg hi, if_neg ha, if_pos (by rw [h]; decide)]
  · rw [newPushGatewayPusher_ok kp opts (by omega) (goLen_pos_of_ne _ h2)
      (goLen_pos_of_ne _ h3)]
    rfl

/-- Witness for C5: empty address fails, empty job fails, both non-empty
succeed. -/
theorem address_job_validation_witness :
    (∃ e, newPushGatewayPusher (fun _ _ => none)
      [PusherOpt.withRemoteAddress "", PusherOpt.withJobName "rk-prom-job"] =
      Except.error e) ∧
    (∃ e, newPushGatewayPusher (fun _ _ => none)
      [PusherOpt.withRemoteAddress "localhost:1608", PusherOpt.withJobName ""] =
      Except.error e) ∧
    (newPushGatewayPusher (fun _ _ => none)
      [PusherOpt.withRemoteAddress "localhost:1608", PusherOpt.withJobName "rk-prom-job"]).isOk
      = true :=
  ⟨(address_job_validation (fun _ _ => none)
      [PusherOpt.withRemoteAddress "", PusherOpt.withJobName "rk-prom-job"]).1 (by decide),
   (address_job_validation (fun _ _ => none)
      [PusherOpt.withRemoteAddress "localhost:1608", PusherOpt.withJobName ""]).2.1 (by decide),
   (address_job_validation (fun _ _ => none)
      [PusherOpt.withRemoteAddress "localhost:1608", PusherOpt.withJobName "rk-prom-job"]).2.2
      (by decide) (by decide) (by decide)⟩

/-- Does this option set the interval? -/
def setsInterval : PusherOpt → Bool
  | .withIntervalMS _ => true
  | _ => false

lemma applyOpts_interval_const (opts : List PusherOpt) (cfg : PusherConfig)
    (h : ∀ o ∈ opts, setsInterval o = false) :
    (applyOpts opts cfg).intervalMS = cfg.intervalMS := by
  induction opts generalizing cfg with
  | nil => rfl
  | cons o os ih =>
    have ho := h o (by simp)
    have hos : ∀ x ∈ os, setsInterval x = false := fun x hx => h x (by simp [hx])
    show (applyOpts os (applyOpt cfg o)).intervalMS = cfg.intervalMS
    rw [ih (applyOpt cfg o) hos]
    cases o <;> simp_all [setsInterval, applyOpt]

/-- Claim C10: if no interval option is given, interval validation cannot
fail — the publisher keeps the default of one second, and with non-empty
address and job name construction succeeds with `interval = 1s` and
`running = false`. -/
theorem default_interval (kp : String → String → Option String)
    (opts : List PusherOpt) (hno : ∀ o ∈ opts, setsInterval o = false) :
    newPushGatewayPusher kp opts ≠ Except.error "invalid intervalMS" ∧
    ((applyOpts opts initialPusherConfig).remoteAddress ≠ "" →
      (applyOpts opts initialPusherConfig).jobName ≠ "" →
      ∃ p, newPushGatewayPusher kp opts = Except.ok p ∧
        p.intervalMS = timeSecond ∧ p.running = false) := by
  have hint : (applyOpts opts initialPusherConfig).intervalMS = timeSecond :=
    applyOpts_interval_const opts initialPusherConfig hno
  have hi : ¬ (applyOpts opts initialPusherConfig).intervalMS < 1 := by
    rw [hint]; decide
  constructor
  · intro hcontra
    unfold newPushGatewayPusher at hcontra
    rw [if_neg hi] at hcontra
    by_cases h2 : goLen (applyOpts opts initialPusherConfig).remoteAddress < 1
    · rw [if_pos h2] at hcontra
      injection hcontra with h
      exact absurd h (by decide)
    · rw [if_neg h2] at hcontra
      by_cases h3 : goLen (applyOpts opts initialPusherConfig).jobName < 1
      · rw [if_pos h3] at hcontra
        injection hcontra with h
        exact absurd h (by decide)
      · rw [if_neg h3] at hcontra
        exact Except.noConfusion hcontra
  · intro h2 h3
    refine ⟨_, newPushGatewayPusher_ok kp opts hi (goLen_pos_of_ne _ h2)
      (goLen_pos_of_ne _ h3), ?_, rfl⟩
    exact hint

/-- Witness for C10 at options that set only the address and the job. -/
theorem default_interval_witness :
    newPushGatewayPusher (fun _ _ => none)
      [PusherOpt.withRemoteAddress "localhost:1608", PusherOpt.withJobName "rk-prom-job"] ≠
      Except.error "invalid intervalMS" ∧
    ∃ p, newPushGatewayPusher (fun _ _ => none)
      [PusherOpt.withRemoteAddress "localhost:1608", PusherOpt.withJobName "rk-prom-job"] =
      Except.ok p ∧ p.intervalMS = timeSecond ∧ p.running = false :=
  ⟨(default_interval (fun _ _ => none)
      [PusherOpt.withRemoteAddress "localhost:1608", PusherOpt.withJobName "rk-prom-job"]
      (by decide)).1,
   (default_interval (fun _ _ => none)
      [PusherOpt.withRemoteAddress "localhost:1608", PusherOpt.withJobName "rk-prom-job"]
      (by decide)).2 (by decide) (by decide)⟩

/-- Claim C6: a credential that does not split, after trimming, into exactly
two colon-separated tokens still lets construction succeed and no basic
auth is applied; a credential with exactly one separating colon (two
tokens) is applied as basic auth. -/
theorem credential_basic_auth (kp : String → String → Option String)
    (opts : List PusherOpt)
    (h1 : 1 ≤ (applyOpts opts initialPusherConfig).intervalMS)
    (h2 : (applyOpts opts initialPusherConfig).remoteAddress ≠ "")
    (h3 : (applyOpts opts initialPusherConfig).jobName ≠ "") :
    ∃ p, newPushGatewayPusher kp opts = Except.ok p ∧
      ((goSplitColon (goTrimSpace (applyOpts opts initialPusherConfig).credential)).length ≠ 2 →
        p.pusher.basicAuth = none) ∧
      (∀ u pw, 0 < goLen (applyOpts opts initialPusherConfig).credential →
        goContainsColon (applyOpts opts initialPusherConfig).credential = true →
        goSplitColon (goTrimSpace (applyOpts opts initialPusherConfig).credential) = [u, pw] →
        p.pusher.basicAuth = some (u, pw)) := by
  refine ⟨_, newPushGatewayPusher_ok kp opts (by omega) (goLen_pos_of_ne _ h2)
    (goLen_pos_of_ne _ h3), ?_, ?_⟩
  · intro hlen
    show resolveBasicAuth (applyOpts opts initialPusherConfig).credential = none
    unfold resolveBasicAuth
    by_cases hc : credApplies (applyOpts opts initialPusherConfig).credential = true
    · rw [if_pos hc]
      split
      · next u pw heq => exact absurd (by rw [heq]; rfl) hlen
      · rfl
    · rw [if_neg hc]
  · intro u pw hlen hcol hsplit
    show resolveBasicAuth (applyOpts opts initialPusherConfig).credential = some (u, pw)
    unfold resolveBasicAuth credApplies
    rw [if_pos (by rw [hcol]; simp [hlen]), hsplit]

/-- Witness for C6: `user:pass:pass` yields no auth, `user:pass` yields
basic auth with user `user` and password `pass`. -/
theorem credential_basic_auth_witness :
    (∃ p, newPushGatewayPusher (fun _ _ => none)
        [PusherOpt.withRemoteAddress "localhost:1608", PusherOpt.withJobName "rk-prom-job",
          PusherOpt.withBasicAuth "user:pass:pass"] = Except.ok p ∧
        p.pusher.basicAuth = none) ∧
    (∃ p, newPushGatewayPusher (fun _ _ => none)
        [PusherOpt.withRemoteAddress "localhost:1608", PusherOpt.withJobName "rk-prom-job",
          PusherOpt.withBasicAuth "user:pass"] = Except.ok p ∧
        p.pusher.basicAuth = some ("user", "pass")) := by
  constructor
  · obtain ⟨p, hok, hnone, _⟩ := credential_basic_auth (fun _ _ => none)
      [PusherOpt.withRemoteAddress "localhost:1608", PusherOpt.withJobName "rk-prom-job",
        PusherOpt.withBasicAuth "user:pass:pass"] (by decide) (by decide) (by decide)
    exact ⟨p, hok, hnone (by decide)⟩
  · obtain ⟨p, hok, _, hsome⟩ := credential_basic_auth (fun _ _ => none)
      [PusherOpt.withRemoteAddress "localhost:1608", PusherOpt.withJobName "rk-prom-job",
        PusherOpt.withBasicAuth "user:pass"] (by decide) (by decide) (by decide)
    exact ⟨p, hok, hsome "user" "pass" (by decide) (by decide) (by decide)⟩

/-- Claim C7: a certificate bundle whose client certificate/key pair fails
to parse never fails construction — the publisher is built with a CA-only
TLS configuration whose root pool is fed the server certificate. -/
theorem cert_parse_failure_tolerated (kp : String → String → Option String)
    (opts : List PusherOpt) (cs : CertStore)
    (h1 : 1 ≤ (applyOpts opts initialPusherConfig).intervalMS)
    (h2 : (applyOpts opts initialPusherConfig).remoteAddress ≠ "")
    (h3 : (applyOpts opts initialPusherConfig).jobName ≠ "")
    (hc : (applyOpts opts initialPusherConfig).certStore = some cs)
    (hkp : kp cs.clientCert cs.clientKey = none) :
    ∃ p, newPushGatewayPusher kp opts = Except.ok p ∧
      p.pusher.tlsConf = some { rootCAs := cs.serverCert, certificates := [] } := by
  refine ⟨_, newPushGatewayPusher_ok kp opts (by omega) (goLen_pos_of_ne _ h2)
    (goLen_pos_of_ne _ h3), ?_⟩
  show buildTLSConf kp (applyOpts opts initialPusherConfig).certStore = _
  rw [hc]
  simp [buildTLSConf, hkp]

/-- Witness for C7 with a parser that rejects the concrete client pair. -/
theorem cert_parse_failure_tolerated_witness :
    ∃ p, newPushGatewayPusher (fun _ _ => none)
      [PusherOpt.withRemoteAddress "localhost:1608", PusherOpt.withJobName "rk-prom-job",
        PusherOpt.withCertStore (some ⟨"server-ca-pem", "bad-client-cert", "bad-client-key"⟩)] =
      Except.ok p ∧
      p.pusher.tlsConf = some { rootCAs := "server-ca-pem", certificates := [] } :=
  cert_parse_failure_tolerated (fun _ _ => none)
    [PusherOpt.withRemoteAddress "localhost:1608", PusherOpt.withJobName "rk-prom-job",
      PusherOpt.withCertStore (some ⟨"server-ca-pem", "bad-client-cert", "bad-client-key"⟩)]
    ⟨"server-ca-pem", "bad-client-cert", "bad-client-key"⟩
    (by decide) (by decide) (by decide) (by decide) rfl

/-- Claim C9: metrics-set keys `namespace::subsystem::name` are unique —
registering a counter, gauge, summary or histogram whose derived key is
already present returns the duplicate-metrics error and leaves the set
unchanged, and every run of register calls from a fresh set keeps the key
set duplicate-free. -/
theorem metrics_keys_unique :
    (∀ regResult set name, validateRawName (goTrimSpace name) = none →
      containsKey set (getKey set (goTrimSpace name)) = true →
      registerCounter regResult set name =
        (set, some ("duplicate metrics:" ++ getKey set (goTrimSpace name))) ∧
      registerGauge regResult set name =
        (set, some ("duplicate metrics:" ++ getKey set (goTrimSpace name))) ∧
      registerSummary regResult set name =
        (set, some ("duplicate metrics:" ++ getKey set (goTrimSpace name))) ∧
      registerHistogram regResult set name =
        (set, some ("duplicate metrics:" ++ getKey set (goTrimSpace name)))) ∧
    (∀ ns ss ops, (runMetricsOps (newMetricsSet ns ss) ops).keys.Nodup) := by
  constructor
  · intro r set name hv hdup
    refine ⟨?_, ?_, ?_, ?_⟩ <;>
      simp [registerCounter, registerGauge, registerSummary, registerHistogram,
        registerMetric, hv, hdup]
  · intro ns ss ops
    exact runMetricsOps_keys_nodup _ ops (by simp [newMetricsSet])

/-- Witness for C9: re-registering `cnt` on a set already holding
`rk::service::cnt` errors and changes nothing; a concrete run keeps keys
duplicate-free. -/
theorem metrics_keys_unique_witness :
    registerCounter none
      ⟨"rk", "service", ["rk::service::cnt"], ["rk::service::cnt"], [], [], []⟩ "cnt" =
      (⟨"rk", "service", ["rk::service::cnt"], ["rk::service::cnt"], [], [], []⟩,
        some "duplicate metrics:rk::service::cnt") ∧
    (runMetricsOps (newMetricsSet "rk" "service")
      [MetricsOp.counter none "cnt", MetricsOp.counter none "cnt",
        MetricsOp.gauge none "g"]).keys.Nodup :=
  ⟨(metrics_keys_unique.1 none
      ⟨"rk", "service", ["rk::service::cnt"], ["rk::service::cnt"], [], [], []⟩ "cnt"
      (by decide) (by decide)).1,
   metrics_keys_unique.2 "rk" "service"
      [MetricsOp.counter none "cnt", MetricsOp.counter none "cnt",
        MetricsOp.gauge none "g"]⟩

/-- Counterexample for C2: with a certificate bundle, an address that
already starts with `http://` is NOT left unchanged — the constructor still
prepends `https://`, producing `https://http://localhost:1608`. -/
theorem https_normalization_counterexample :
    goStartsWith "http://localhost:1608" "http://" = true ∧
    Except.map (fun p => p.remoteAddress)
      (newPushGatewayPusher (fun _ _ => none)
        [PusherOpt.withRemoteAddress "http://localhost:1608",
          PusherOpt.withJobName "rk-prom-job",
          PusherOpt.withCertStore (some ⟨"ca", "cert", "key"⟩)]) =
      Except.ok "https://http://localhost:1608" :=
  ⟨rfl, rfl⟩

/-- Claim C2 (amended): when a certificate bundle is supplied, `https://`
is prepended if and only if the address does not already start with
`https://` — an address starting with `http://` also gets `https://`
prepended in front of it. -/
theorem https_normalization_amended (kp : String → String → Option String)
    (opts : List PusherOpt) (cs : CertStore)
    (h1 : 1 ≤ (applyOpts opts initialPusherConfig).intervalMS)
    (h2 : (applyOpts opts initialPusherConfig).remoteAddress ≠ "")
    (h3 : (applyOpts opts initialPusherConfig).jobName ≠ "")
    (hc : (applyOpts opts initialPusherConfig).certStore = some cs) :
    ∃ p, newPushGatewayPusher kp opts = Except.ok p ∧
      p.remoteAddress =
        (if goStartsWith (applyOpts opts initialPusherConfig).remoteAddress "https://" then
          (applyOpts opts initialPusherConfig).remoteAddress
        else "https://" ++ (applyOpts opts initialPusherConfig).remoteAddress) := by
  refine ⟨_, newPushGatewayPusher_ok kp opts (by omega) (goLen_pos_of_ne _ h2)
    (goLen_pos_of_ne _ h3), ?_⟩
  show resolveAddress (applyOpts opts initialPusherConfig).certStore
    (applyOpts opts initialPusherConfig).remoteAddress = _
  rw [hc]
  by_cases hs : goStartsWith (applyOpts opts initialPusherConfig).remoteAddress "https://" = true
  · simp [resolveAddress, hs]
  · simp [resolveAddress, hs]

/-- Witness for C2 (amended): a schemeless address gets the prepend. -/
theorem https_normalization_amended_witness :
    ∃ p, newPushGatewayPusher (fun _ _ => none)
      [PusherOpt.withRemoteAddress "localhost:1608", PusherOpt.withJobName "rk-prom-job",
        PusherOpt.withCertStore (some ⟨"ca", "cert", "key"⟩)] = Except.ok p ∧
      p.remoteAddress = "https://localhost:1608" := by
  obtain ⟨p, hok, haddr⟩ := https_normalization_amended (fun _ _ => none)
    [PusherOpt.withRemoteAddress "localhost:1608", PusherOpt.withJobName "rk-prom-job",
      PusherOpt.withCertStore (some ⟨"ca", "cert", "key"⟩)]
    ⟨"ca", "cert", "key"⟩ (by decide) (by decide) (by decide) rfl
  exact ⟨p, hok, by rw [haddr]; rfl⟩

/-- Counterexample for C1: the `String()` snapshot of a successfully
constructed publisher DOES contain the raw credential string `user:pass`
(the exported `Credential` field is marshalled like every other field). -/
theorem snapshot_credential_counterexample :
    Except.map (fun p => listContainsSub "user:pass".data
        (pushGatewayPusherString "null" "null" "null" "\x7b\x7d" p).data)
      (newPushGatewayPusher (fun _ _ => none)
        [PusherOpt.withIntervalMS (200 * timeMillisecond),
          PusherOpt.withRemoteAddress "localhost:1608",
          PusherOpt.withJobName "rk-prom-job",
          PusherOpt.withBasicAuth "user:pass"]) = Except.ok true := by
  rfl

/-- Claim C1 (amended): for every successfully constructed publisher the
snapshot carries the stored interval, remote address, job name and running
state as JSON fields — and, contrary to the original claim, it also carries
the `Credential` field, so a credential needing no JSON escaping appears in
the output verbatim. -/
theorem snapshot_reflects_fields_amended (zapR eventR certR pushR : String)
    (kp : String → String → Option String) (opts : List PusherOpt)
    (p : PushGatewayPusher)
    (hok : newPushGatewayPusher kp opts = Except.ok p) :
    (∃ u v, pushGatewayPusherString zapR eventR certR pushR p =
      u ++ (",\"IntervalMS\":" ++ toString p.intervalMS) ++ v) ∧
    (∃ u v, pushGatewayPusherString zapR eventR certR pushR p =
      u ++ (",\"RemoteAddress\":" ++ goJsonString p.remoteAddress) ++ v) ∧
    (∃ u v, pushGatewayPusherString zapR eventR certR pushR p =
      u ++ (",\"JobName\":" ++ goJsonString p.jobName) ++ v) ∧
    (∃ u v, pushGatewayPusherString zapR eventR certR pushR p =
      u ++ (",\"Running\":" ++ (if p.running then "true" else "false")) ++ v) ∧
    (∃ u, pushGatewayPusherString zapR eventR certR pushR p =
      u ++ (",\"Credential\":" ++ goJsonString p.credential ++ "\x7d")) ∧
    ((∀ c ∈ p.credential.data, goJsonPlainChar c) →
      ∃ u v, pushGatewayPusherString zapR eventR certR pushR p =
        u ++ p.credential ++ v) := by
  refine ⟨?_, ?_, ?_, ?_, ?_, ?_⟩
  · refine ⟨((("\x7b\"ZapLoggerEntry\":" ++ zapR) ++ (",\"EventLoggerEntry\":" ++ eventR))
      ++ (",\"CertStore\":" ++ certR)) ++ (",\"Pusher\":" ++ pushR),
      (((",\"RemoteAddress\":" ++ goJsonString p.remoteAddress)
        ++ (",\"JobName\":" ++ goJsonString p.jobName))
        ++ (",\"Running\":" ++ (if p.running then "true" else "false")))
        ++ (",\"Credential\":" ++ goJsonString p.credential ++ "\x7d"), ?_⟩
    simp only [pushGatewayPusherString, strAppend_assoc]
  · refine ⟨(((("\x7b\"ZapLoggerEntry\":" ++ zapR) ++ (",\"EventLoggerEntry\":" ++ eventR))
      ++ (",\"CertStore\":" ++ certR)) ++ (",\"Pusher\":" ++ pushR))
      ++ (",\"IntervalMS\":" ++ toString p.intervalMS),
      ((",\"JobName\":" ++ goJsonString p.jobName)
        ++ (",\"Running\":" ++ (if p.running then "true" else "false")))
        ++ (",\"Credential\":" ++ goJsonString p.credential ++ "\x7d"), ?_⟩
    simp only [pushGatewayPusherString, strAppend_assoc]
  · refine ⟨((((("\x7b\"ZapLoggerEntry\":" ++ zapR) ++ (",\"EventLoggerEntry\":" ++ eventR))
      ++ (",\"CertStore\":" ++ certR)) ++ (",\"Pusher\":" ++ pushR))
      ++ (",\"IntervalMS\":" ++ toString p.intervalMS))
      ++ (",\"RemoteAddress\":" ++ goJsonString p.remoteAddress),
      (",\"Running\":" ++ (if p.running then "true" else "false"))
        ++ (",\"Credential\":" ++ goJsonString p.credential ++ "\x7d"), ?_⟩
    simp only [pushGatewayPusherString, strAppend_assoc]
  · refine ⟨(((((("\x7b\"ZapLoggerEntry\":" ++ zapR) ++ (",\"EventLoggerEntry\":" ++ eventR))
      ++ (",\"CertStore\":" ++ certR)) ++ (",\"Pusher\":" ++ pushR))
      ++ (",\"IntervalMS\":" ++ toString p.intervalMS))
      ++ (",\"RemoteAddress\":" ++ goJsonString p.remoteAddress))
      ++ (",\"JobName\":" ++ goJsonString p.jobName),
      ",\"Credential\":" ++ goJsonString p.credential ++ "\x7d", ?_⟩
    simp only [pushGatewayPusherString, strAppend_assoc]
  · exact ⟨((((((("\x7b\"ZapLoggerEntry\":" ++ zapR) ++ (",\"EventLoggerEntry\":" ++ eventR))
      ++ (",\"CertStore\":" ++ certR)) ++ (",\"Pusher\":" ++ pushR))
      ++ (",\"IntervalMS\":" ++ toString p.intervalMS))
      ++ (",\"RemoteAddress\":" ++ goJsonString p.remoteAddress))
      ++ (",\"JobName\":" ++ goJsonString p.jobName))
      ++ (",\"Running\":" ++ (if p.running then "true" else "false")), rfl⟩
  · intro hplain
    refine ⟨(((((((("\x7b\"ZapLoggerEntry\":" ++ zapR) ++ (",\"EventLoggerEntry\":" ++ eventR))
      ++ (",\"CertStore\":" ++ certR)) ++ (",\"Pusher\":" ++ pushR))
      ++ (",\"IntervalMS\":" ++ toString p.intervalMS))
      ++ (",\"RemoteAddress\":" ++ goJsonString p.remoteAddress))
      ++ (",\"JobName\":" ++ goJsonString p.jobName))
      ++ (",\"Running\":" ++ (if p.running then "true" else "false")))
      ++ (",\"Credential\":" ++ "\""),
      "\"" ++ "\x7d", ?_⟩
    rw [pushGatewayPusherString, goJsonString_plain p.credential hplain]
    simp only [strAppend_assoc]

/-- Witness for C1 (amended): the snapshot of the concretely constructed
publisher contains its credential verbatim. -/
theorem snapshot_reflects_fields_amended_witness :
    ∃ p, newPushGatewayPusher (fun _ _ => none)
      [PusherOpt.withIntervalMS (200 * timeMillisecond),
        PusherOpt.withRemoteAddress "localhost:1608",
        PusherOpt.withJobName "rk-prom-job",
        PusherOpt.withBasicAuth "user:pass"] = Except.ok p ∧
      ∃ u v, pushGatewayPusherString "null" "null" "null" "\x7b\x7d" p =
        u ++ p.credential ++ v := by
  refine ⟨_, newPushGatewayPusher_ok (fun _ _ => none)
    [PusherOpt.withIntervalMS (200 * timeMillisecond),
      PusherOpt.withRemoteAddress "localhost:1608",
      PusherOpt.withJobName "rk-prom-job",
      PusherOpt.withBasicAuth "user:pass"]
    (by decide) (by decide) (by decide), ?_⟩
  exact (snapshot_reflects_fields_amended "null" "null" "null" "\x7b\x7d"
    (fun _ _ => none)
    [PusherOpt.withIntervalMS (200 * timeMillisecond),
      PusherOpt.withRemoteAddress "localhost:1608",
      PusherOpt.withJobName "rk-prom-job",
      PusherOpt.withBasicAuth "user:pass"]
    _ (newPushGatewayPusher_ok (fun _ _ => none)
      [PusherOpt.withIntervalMS (200 * timeMillisecond),
        PusherOpt.withRemoteAddress "localhost:1608",
        PusherOpt.withJobName "rk-prom-job",
        PusherOpt.withBasicAuth "user:pass"]
      (by decide) (by decide) (by decide))).2.2.2.2.2 (by decide)

end RkProm
